import Mathlib

/-!
Shallow embedding of the kernel-dispatch registry of pennylane-lightning,
from pennylane_lightning/core/src/simulators/lightning_qubit/gates/DynamicDispatcher.hpp.

Modelling conventions:
- every std::unordered_map member is an association list; mlookup models
  find / at / contains and memplace models emplace (insert-if-absent);
- the state-vector buffer (complex<PrecisionT>* data) is an abstract state
  type sigma, mutated functionally by the registered callables;
- PrecisionT is an abstract scalar type alpha; matrix element type is
  alpha x alpha (a complex number as a pair);
- the gate, generator and kernel enumerations come from Constant.hpp and
  KernelType.hpp, which are outside the embedded source; the dispatcher is
  therefore parametric in those types (G, N, K), and small representative
  enumerations modelled from the spec are used to instantiate witnesses;
- a C++ throw is modelled as an error outcome carrying the error category,
  the thrown message where the source supplies one, and the buffer state at
  the moment of the throw; a PL_ASSERT failure is a distinguished fatal
  outcome.
-/

/-- Lookup in an association list: the value stored at the first matching
key, modelling unordered_map find / at / contains (keys are kept unique by
construction, so "first" is "the"). -/
def mlookup {κ ν : Type} [DecidableEq κ] : List (κ × ν) → κ → Option ν
  | [], _ => none
  | (k, v) :: rest, key => if key = k then some v else mlookup rest key

/-- Insert-if-absent, modelling unordered_map emplace: when the key is
already present the map is returned unchanged (the insertion is a silent
no-op); otherwise the binding is added. -/
def memplace {κ ν : Type} [DecidableEq κ] (m : List (κ × ν)) (key : κ) (v : ν) :
    List (κ × ν) :=
  match mlookup m key with
  | some _ => m
  | none => (key, v) :: m

/-- Error categories of the dispatcher, one constructor per distinct throw
site in DynamicDispatcher.hpp. unknownOperation is the std::out_of_range
thrown by unordered_map at on a missing name (strToGateOp, strToGeneratorOp);
the other constructors are the std::invalid_argument throws, carrying the
message text built at the throw site. -/
inductive DispatchError where
  | unknownOperation : DispatchError
  | kernelNotRegistered (msg : String) : DispatchError
  | argumentCountMismatch (msg : String) : DispatchError
  | matrixSizeMismatch (msg : String) : DispatchError
deriving DecidableEq, Repr

/-- Result of a buffer-mutating dispatch call: normal return with the final
buffer, a thrown error with the buffer as it was at the throw, or a fatal
PL_ASSERT abort. -/
inductive Outcome (σ : Type) where
  | ok (data : σ) : Outcome σ
  | err (e : DispatchError) (data : σ) : Outcome σ
  | fatal : Outcome σ
deriving DecidableEq, Repr

/-- Result of applyGenerator: the returned PrecisionT scale factor together
with the mutated buffer, or a thrown error with the unchanged buffer. -/
inductive GenOutcome (α σ : Type) where
  | ok (scale : α) (data : σ) : GenOutcome α σ
  | err (e : DispatchError) (data : σ) : GenOutcome α σ
deriving DecidableEq, Repr

/-- GateFunc: callable over (data, num_qubits, wires, inverse, params),
mutating the buffer. -/
def GateFunc (α σ : Type) : Type := σ → Nat → List Nat → Bool → List α → σ

/-- GeneratorFunc: callable over (data, num_qubits, wires, adj), returning
the scalar scale factor and the mutated buffer. -/
def GeneratorFunc (α σ : Type) : Type := σ → Nat → List Nat → Bool → α × σ

/-- MatrixFunc: callable over (data, num_qubits, matrix, wires, inverse). -/
def MatrixFunc (α σ : Type) : Type := σ → Nat → List (α × α) → List Nat → Bool → σ

/-- MatrixOperation: exactly the three shapes named in the applyMatrix
switch (SingleQubitOp, TwoQubitOp, MultiQubitOp). -/
inductive MatrixOperation where
  | SingleQubitOp : MatrixOperation
  | TwoQubitOp : MatrixOperation
  | MultiQubitOp : MatrixOperation
deriving DecidableEq, Repr

/-- Modelled from the spec: the matrix_names display-name table of
Constant.hpp (not under src/), mapping each matrix-operation shape to its
display name, used in the applyMatrix failure message. -/
def matrix_names : MatrixOperation → String
  | MatrixOperation.SingleQubitOp => "SingleQubitOp"
  | MatrixOperation.TwoQubitOp => "TwoQubitOp"
  | MatrixOperation.MultiQubitOp => "MultiQubitOp"

/-- Modelled from the spec: exp2 of Util.hpp (not under src/) is the power
of two; the spec states the matrix size check as count == 4^(wires.length),
matching exp2 (2 * wires.length). -/
def exp2 (n : Nat) : Nat := 2 ^ n

/-- State of the DynamicDispatcher singleton: the two name tables, the
three (operation, kernel) -> callable mappings and the kernel-name table,
each an association list standing for the unordered_map member of the same
name. -/
structure DynamicDispatcher (α σ G N K : Type) where
  str_to_gates_ : List (String × G)
  str_to_gntrs_ : List (String × N)
  gate_kernels_ : List ((G × K) × GateFunc α σ)
  generator_kernels_ : List ((N × K) × GeneratorFunc α σ)
  matrix_kernels_ : List ((MatrixOperation × K) × MatrixFunc α σ)
  kernel_names_ : List (K × String)

/-- Literal "Generator", the constexpr string_view stripped by
generatorNamesWithoutPrefix. -/
def generatorLiteral : String := "Generator"

/-- Translation of Internal generatorNamesWithoutPrefix: each catalogued
(generator, name) pair with the leading "Generator" removed from the name
(substr of the prefix size). -/
def generatorNamesWithoutPrefix {N : Type} (generator_names : List (N × String)) :
    List (N × String) :=
  generator_names.map (fun p => (p.1, p.2.drop generatorLiteral.length))

section Dispatcher

variable {α σ G N K : Type} [DecidableEq G] [DecidableEq N] [DecidableEq K]

/-- Translation of the DynamicDispatcher constructor: emplaces every
catalogued (gate_op, gate_name) into str_to_gates_ and every
prefix-stripped (gntr_op, gntr_name) into str_to_gntrs_; all callable
mappings start empty. The two catalogues are parameters because
Constant.hpp is outside the embedded source. -/
def mkDynamicDispatcher (gate_names : List (G × String))
    (generator_names : List (N × String)) : DynamicDispatcher α σ G N K :=
  { str_to_gates_ := gate_names.foldl (fun m p => memplace m p.2 p.1) []
  , str_to_gntrs_ :=
      ( generatorNamesWithoutPrefix generator_names).foldl
        (fun m p => memplace m p.2 p.1) []
  , gate_kernels_ := []
  , generator_kernels_ := []
  , matrix_kernels_ := []
  , kernel_names_ := [] }

/-- Translation of registeredKernels: the kernel identifiers of the
kernel-name table. -/
def registeredKernels (d : DynamicDispatcher α σ G N K) : List K :=
  d.kernel_names_.map Prod.fst

/-- Translation of isRegisteredKernel: contains on kernel_names_. -/
def isRegisteredKernel (d : DynamicDispatcher α σ G N K) (kernel : K) : Bool :=
  (mlookup d.kernel_names_ kernel).isSome

/-- Translation of registerKernelName: emplace into kernel_names_. -/
def registerKernelName (d : DynamicDispatcher α σ G N K) (kernel : K)
    (name : String) : DynamicDispatcher α σ G N K :=
  { d with kernel_names_ := memplace d.kernel_names_ kernel name }

/-- Translation of getKernelName: kernel_names_ at; none models the
std::out_of_range throw for an unnamed kernel. -/
def getKernelName (d : DynamicDispatcher α σ G N K) (kernel : K) : Option String :=
  mlookup d.kernel_names_ kernel

/-- Translation of strToGateOp: str_to_gates_ at; none models the
std::out_of_range throw for an unknown gate name. -/
def strToGateOp (d : DynamicDispatcher α σ G N K) (gate_name : String) : Option G :=
  mlookup d.str_to_gates_ gate_name

/-- Translation of hasGateOp: str_to_gates_ contains. -/
def hasGateOp (d : DynamicDispatcher α σ G N K) (gate_name : String) : Bool :=
  (mlookup d.str_to_gates_ gate_name).isSome

/-- Translation of strToGeneratorOp: str_to_gntrs_ at on the bare
(prefix-stripped) generator name. -/
def strToGeneratorOp (d : DynamicDispatcher α σ G N K) (gntr_name : String) :
    Option N :=
  mlookup d.str_to_gntrs_ gntr_name

/-- Translation of registerGateOperation: emplace into gate_kernels_. -/
def registerGateOperation (d : DynamicDispatcher α σ G N K) (gate_op : G)
    (kernel : K) (func : GateFunc α σ) : DynamicDispatcher α σ G N K :=
  { d with gate_kernels_ := memplace d.gate_kernels_ (gate_op, kernel) func }

/-- Translation of registerGeneratorOperation: emplace into
generator_kernels_. -/
def registerGeneratorOperation (d : DynamicDispatcher α σ G N K) (gntr_op : N)
    (kernel : K) (func : GeneratorFunc α σ) : DynamicDispatcher α σ G N K :=
  { d with generator_kernels_ := memplace d.generator_kernels_ (gntr_op, kernel) func }

/-- Translation of registerMatrixOperation: emplace into matrix_kernels_. -/
def registerMatrixOperation (d : DynamicDispatcher α σ G N K)
    (mat_op : MatrixOperation) (kernel : K) (func : MatrixFunc α σ) :
    DynamicDispatcher α σ G N K :=
  { d with matrix_kernels_ := memplace d.matrix_kernels_ (mat_op, kernel) func }

/-- Message of the gate-dispatch kernel-not-found throw, as the two C++
string literals concatenate. -/
def gateKernelMissingMsg : String :=
  "Cannot find a registered kernel for a given gate and kernel pair"

/-- Message of the generator-dispatch kernel-not-found throw. -/
def generatorKernelMissingMsg : String :=
  "Cannot find a registered kernel for a given generator and kernel pair."

/-- Message of the applyOperations length-mismatch throw (both overloads
use the same literal). -/
def invalidArgumentsMsg : String :=
  "Invalid arguments: number of operations, wires, and parameters must all be equal"

/-- Message of the applyMatrix size-mismatch throw. -/
def matrixSizeMsg : String :=
  "The size of matrix does not match with the given number of wires"

/-- Message suffix of the applyMatrix kernel-not-found throw. -/
def matrixMissingMsgSuffix : String := " is not registered for the given kernel"

/-- Translation of applyOperation (string overload): resolve the name via
strToGateOp (throwing out_of_range, i.e. unknownOperation, if absent), look
up (gate_op, kernel) in gate_kernels_ (throwing invalid_argument with the
fixed message if absent), then invoke the callable on the buffer. -/
def applyOperation (d : DynamicDispatcher α σ G N K) (kernel : K) (data : σ)
    (num_qubits : Nat) (op_name : String) (wires : List Nat) (inverse : Bool)
    (params : List α) : Outcome σ :=
  match strToGateOp d op_name with
  | none => Outcome.err DispatchError.unknownOperation data
  | some gate_op =>
    match mlookup d.gate_kernels_ (gate_op, kernel) with
    | none =>
        Outcome.err (DispatchError.kernelNotRegistered gateKernelMissingMsg) data
    | some func => Outcome.ok (func data num_qubits wires inverse params)

/-- Translation of applyOperation (GateOperation overload): look up
(gate_op, kernel) directly and invoke. -/
def applyOperationOp (d : DynamicDispatcher α σ G N K) (kernel : K) (data : σ)
    (num_qubits : Nat) (gate_op : G) (wires : List Nat) (inverse : Bool)
    (params : List α) : Outcome σ :=
  match mlookup d.gate_kernels_ (gate_op, kernel) with
  | none =>
      Outcome.err (DispatchError.kernelNotRegistered gateKernelMissingMsg) data
  | some func => Outcome.ok (func data num_qubits wires inverse params)

/-- Loop body of applyOperations (full overload): apply each operation in
input order through applyOperation, threading the buffer; the first
non-ok result is returned as is and ends the loop. The final catch-all arm
is reached only when the parallel lists run out together (loop exhausted)
or in the region that is out-of-bounds undefined behaviour in C++ (the
inverse vector is never length-checked). -/
def applyOperationsLoop (d : DynamicDispatcher α σ G N K) (kernel : K)
    (num_qubits : Nat) :
    σ → List String → List (List Nat) → List Bool → List (List α) → Outcome σ
  | data, op :: ops, ws :: wss, inv :: invs, ps :: pss =>
    match applyOperation d kernel data num_qubits op ws inv ps with
    | Outcome.ok data2 => applyOperationsLoop d kernel num_qubits data2 ops wss invs pss
    | out => out
  | data, _, _, _, _ => Outcome.ok data

/-- Translation of applyOperations (full overload): throws
invalid_argument when ops, wires and params disagree in length, otherwise
runs the sequential loop. -/
def applyOperations (d : DynamicDispatcher α σ G N K) (kernel : K) (data : σ)
    (num_qubits : Nat) (ops : List String) (wires : List (List Nat))
    (inverse : List Bool) (params : List (List α)) : Outcome σ :=
  if ops.length ≠ wires.length ∨ ops.length ≠ params.length then
    Outcome.err (DispatchError.argumentCountMismatch invalidArgumentsMsg) data
  else
    applyOperationsLoop d kernel num_qubits data ops wires inverse params

/-- Loop body of the params-free applyOperations overload: each call passes
an empty parameter list. -/
def applyOperationsLoopNP (d : DynamicDispatcher α σ G N K) (kernel : K)
    (num_qubits : Nat) :
    σ → List String → List (List Nat) → List Bool → Outcome σ
  | data, op :: ops, ws :: wss, inv :: invs =>
    match applyOperation d kernel data num_qubits op ws inv [] with
    | Outcome.ok data2 => applyOperationsLoopNP d kernel num_qubits data2 ops wss invs
    | out => out
  | data, _, _, _ => Outcome.ok data

/-- Translation of applyOperations (params-free overload): throws
invalid_argument when ops and wires disagree in length, otherwise runs the
sequential loop with empty parameters. -/
def applyOperationsNP (d : DynamicDispatcher α σ G N K) (kernel : K) (data : σ)
    (num_qubits : Nat) (ops : List String) (wires : List (List Nat))
    (inverse : List Bool) : Outcome σ :=
  if ops.length ≠ wires.length then
    Outcome.err (DispatchError.argumentCountMismatch invalidArgumentsMsg) data
  else
    applyOperationsLoopNP d kernel num_qubits data ops wires inverse

/-- Classification lambda of applyMatrix: switch on the wire count, 1 to
SingleQubitOp, 2 to TwoQubitOp, default MultiQubitOp. -/
def matOpOfWires (n_wires : Nat) : MatrixOperation :=
  match n_wires with
  | 1 => MatrixOperation.SingleQubitOp
  | 2 => MatrixOperation.TwoQubitOp
  | _ => MatrixOperation.MultiQubitOp

/-- Translation of applyMatrix (pointer overload). PL_ASSERT is modelled
from the spec (Macros.hpp / Error.hpp are outside the embedded source): a
false condition num_qubits >= wires.size() is a fatal abort. Otherwise the
operation is classified by wire count, looked up in matrix_kernels_
(throwing invalid_argument whose message names the classified operation if
absent) and invoked. -/
def applyMatrixRaw (d : DynamicDispatcher α σ G N K) (kernel : K) (data : σ)
    (num_qubits : Nat) (matrix : List (α × α)) (wires : List Nat)
    (inverse : Bool) : Outcome σ :=
  if num_qubits ≥ wires.length then
    match mlookup d.matrix_kernels_ (matOpOfWires wires.length, kernel) with
    | none =>
        Outcome.err
          (DispatchError.kernelNotRegistered
            (matrix_names (matOpOfWires wires.length) ++ matrixMissingMsgSuffix))
          data
    | some func => Outcome.ok (func data num_qubits matrix wires inverse)
  else Outcome.fatal

/-- Translation of applyMatrix (vector overload): throws invalid_argument
when the element count differs from exp2 (2 * wires.length), otherwise
forwards to the pointer overload. -/
def applyMatrix (d : DynamicDispatcher α σ G N K) (kernel : K) (data : σ)
    (num_qubits : Nat) (matrix : List (α × α)) (wires : List Nat)
    (inverse : Bool) : Outcome σ :=
  if matrix.length ≠ exp2 (2 * wires.length) then
    Outcome.err (DispatchError.matrixSizeMismatch matrixSizeMsg) data
  else
    applyMatrixRaw d kernel data num_qubits matrix wires inverse

/-- Translation of applyGenerator (GeneratorOperation overload): look up
(gntr_op, kernel) in generator_kernels_ (throwing invalid_argument if
absent) and invoke, returning the scalar alongside the mutated buffer. -/
def applyGenerator (d : DynamicDispatcher α σ G N K) (kernel : K) (data : σ)
    (num_qubits : Nat) (gntr_op : N) (wires : List Nat) (adj : Bool) :
    GenOutcome α σ :=
  match mlookup d.generator_kernels_ (gntr_op, kernel) with
  | none =>
      GenOutcome.err (DispatchError.kernelNotRegistered generatorKernelMissingMsg) data
  | some func =>
      GenOutcome.ok (func data num_qubits wires adj).1 (func data num_qubits wires adj).2

/-- Translation of applyGenerator (string overload): resolve the bare name
via strToGeneratorOp (throwing out_of_range if absent), then dispatch. -/
def applyGeneratorStr (d : DynamicDispatcher α σ G N K) (kernel : K) (data : σ)
    (num_qubits : Nat) (op_name : String) (wires : List Nat) (adj : Bool) :
    GenOutcome α σ :=
  match strToGeneratorOp d op_name with
  | none => GenOutcome.err DispatchError.unknownOperation data
  | some gntr_op =>
    match mlookup d.generator_kernels_ (gntr_op, kernel) with
    | none =>
        GenOutcome.err (DispatchError.kernelNotRegistered generatorKernelMissingMsg) data
    | some func =>
        GenOutcome.ok (func data num_qubits wires adj).1 (func data num_qubits wires adj).2

end Dispatcher

/-! Helper lemmas about the association-list map model. -/

theorem mlookup_memplace_self_none {κ ν : Type} [DecidableEq κ]
    {m : List (κ × ν)} {k : κ} (v : ν) (h : mlookup m k = none) :
    mlookup (memplace m k v) k = some v := by
  unfold memplace
  rw [h]
  simp [mlookup]

theorem memplace_of_some {κ ν : Type} [DecidableEq κ]
    {m : List (κ × ν)} {k : κ} {v0 : ν} (v : ν) (h : mlookup m k = some v0) :
    memplace m k v = m := by
  unfold memplace
  rw [h]

theorem mlookup_memplace_ne {κ ν : Type} [DecidableEq κ]
    (m : List (κ × ν)) {k k2 : κ} (v : ν) (h : k ≠ k2) :
    mlookup (memplace m k2 v) k = mlookup m k := by
  unfold memplace
  cases hm : mlookup m k2 with
  | some w => rfl
  | none => simp [mlookup, h]

theorem mlookup_memplace_preserve {κ ν : Type} [DecidableEq κ]
    {m : List (κ × ν)} {k : κ} {v : ν} (k2 : κ) (v2 : ν)
    (h : mlookup m k = some v) :
    mlookup (memplace m k2 v2) k = some v := by
  by_cases hk : k = k2
  · subst hk
    rw [memplace_of_some v2 h]
    exact h
  · rw [mlookup_memplace_ne m v2 hk]
    exact h

theorem mlookup_foldl_emplace_preserve {β κ : Type} [DecidableEq κ]
    (l : List (β × κ)) (m : List (κ × β)) {k : κ} {v : β}
    (h : mlookup m k = some v) :
    mlookup (l.foldl (fun acc p => memplace acc p.2 p.1) m) k = some v := by
  induction l generalizing m with
  | nil => exact h
  | cons p rest ih =>
    exact ih (memplace m p.2 p.1) (mlookup_memplace_preserve p.2 p.1 h)

theorem mlookup_foldl_emplace_mem {β κ : Type} [DecidableEq κ]
    (l : List (β × κ)) (m : List (κ × β)) {k : κ} {v : β}
    (hnd : (l.map Prod.snd).Nodup) (hmem : (v, k) ∈ l)
    (h : mlookup m k = none) :
    mlookup (l.foldl (fun acc p => memplace acc p.2 p.1) m) k = some v := by
  induction l generalizing m with
  | nil => cases hmem
  | cons p rest ih =>
    rcases List.mem_cons.mp hmem with heq | htail
    · subst heq
      exact mlookup_foldl_emplace_preserve rest _ (mlookup_memplace_self_none v h)
    · rw [List.map_cons] at hnd
      have hnd2 := List.nodup_cons.mp hnd
      have hkne : p.2 ≠ k := by
        intro hcontra
        exact hnd2.1 (hcontra ▸ List.mem_map_of_mem Prod.snd htail)
      have hnone : mlookup (memplace m p.2 p.1) k = none := by
        rw [mlookup_memplace_ne m p.1 (Ne.symm hkne)]
        exact h
      exact ih (memplace m p.2 p.1) hnd2.2 htail hnone

theorem generator_append_drop (X : String) :
    (generatorLiteral ++ X).drop generatorLiteral.length = X := by
  rw [String.drop_eq, String.data_append]
  have hlen : generatorLiteral.length = generatorLiteral.data.length := rfl
  rw [hlen, List.drop_left]

/-! Representative concrete enumerations and callables, modelled from the
spec, used to instantiate the parametric dispatcher in witnesses. -/

/-- Modelled from the spec: representative enumerators of the GateOperation
enumeration of Constant.hpp (not under src/). -/
inductive GateOperation where
  | PauliX : GateOperation
  | RX : GateOperation
  | CNOT : GateOperation
deriving DecidableEq, Repr

/-- Modelled from the spec: representative enumerators of the
GeneratorOperation enumeration of Constant.hpp (not under src/). -/
inductive GeneratorOperation where
  | RX : GeneratorOperation
  | RY : GeneratorOperation
deriving DecidableEq, Repr

/-- Modelled from the spec: representative kernel identifiers of the
KernelType enumeration of KernelType.hpp (not under src/). -/
inductive KernelType where
  | Reference : KernelType
  | Vectorized : KernelType
deriving DecidableEq, Repr

/-- Modelled from the spec: a small concrete, name-unique gate catalogue
standing in for Constant.hpp gate_names. -/
def gateNamesSample : List (GateOperation × String) :=
  [(GateOperation.PauliX, "PauliX"), (GateOperation.RX, "RX"),
   (GateOperation.CNOT, "CNOT")]

/-- Modelled from the spec: a small concrete, name-unique generator
catalogue standing in for Constant.hpp generator_names, every name carrying
the "Generator" prefix. -/
def generatorNamesSample : List (GeneratorOperation × String) :=
  [(GeneratorOperation.RX, "GeneratorRX"), (GeneratorOperation.RY, "GeneratorRY")]

/-- Freshly constructed dispatcher over the sample catalogues, with a
Nat-valued buffer and Nat parameters. -/
def d0 : DynamicDispatcher Nat Nat GateOperation GeneratorOperation KernelType :=
  mkDynamicDispatcher gateNamesSample generatorNamesSample

/-- Distinguishable stub gate callable (first registration). -/
def gateFuncA : GateFunc Nat Nat := fun data _ _ _ _ => data + 1

/-- Distinguishable stub gate callable (competing registration). -/
def gateFuncB : GateFunc Nat Nat := fun data _ _ _ _ => data + 2

/-- Distinguishable stub generator callable (first registration). -/
def genFuncA : GeneratorFunc Nat Nat := fun data _ _ _ => (5, data + 3)

/-- Distinguishable stub generator callable (competing registration). -/
def genFuncB : GeneratorFunc Nat Nat := fun data _ _ _ => (7, data + 4)

/-- Distinguishable stub matrix callable (first registration). -/
def matFuncA : MatrixFunc Nat Nat := fun data _ _ _ _ => data + 5

/-- Distinguishable stub matrix callable (competing registration). -/
def matFuncB : MatrixFunc Nat Nat := fun data _ _ _ _ => data + 6

/-- Dispatcher with one gate, one generator and one matrix callable
registered under the Reference kernel. -/
def d1 : DynamicDispatcher Nat Nat GateOperation GeneratorOperation KernelType :=
  registerMatrixOperation
    (registerGeneratorOperation
      (registerGateOperation d0 GateOperation.PauliX KernelType.Reference gateFuncA)
      GeneratorOperation.RX KernelType.Reference genFuncA)
    MatrixOperation.SingleQubitOp KernelType.Reference matFuncA

/-- C1: registering a callable for an already-occupied (operation, kernel)
key in any of the three callable mappings (gate, generator, matrix) is a
silent no-op: the dispatcher state is unchanged, so the first registered
callable is kept, and every later dispatch of that pair invokes the first
registered callable, never the later one. -/
theorem C1_registration_first_wins {α σ G N K : Type}
    [DecidableEq G] [DecidableEq N] [DecidableEq K]
    (d : DynamicDispatcher α σ G N K) (gate_op : G) (gntr_op : N)
    (mat_op : MatrixOperation) (kernel : K)
    (f1 f2 : GateFunc α σ) (g1 g2 : GeneratorFunc α σ) (m1 m2 : MatrixFunc α σ)
    (hf : mlookup d.gate_kernels_ (gate_op, kernel) = some f1)
    (hg : mlookup d.generator_kernels_ (gntr_op, kernel) = some g1)
    (hm : mlookup d.matrix_kernels_ (mat_op, kernel) = some m1) :
    registerGateOperation d gate_op kernel f2 = d ∧
    registerGeneratorOperation d gntr_op kernel g2 = d ∧
    registerMatrixOperation d mat_op kernel m2 = d ∧
    (∀ (data : σ) (num_qubits : Nat) (wires : List Nat) (inverse : Bool)
        (params : List α),
      applyOperationOp (registerGateOperation d gate_op kernel f2) kernel data
          num_qubits gate_op wires inverse params
        = Outcome.ok (f1 data num_qubits wires inverse params)) ∧
    (∀ (data : σ) (num_qubits : Nat) (wires : List Nat) (adj : Bool),
      applyGenerator (registerGeneratorOperation d gntr_op kernel g2) kernel data
          num_qubits gntr_op wires adj
        = GenOutcome.ok (g1 data num_qubits wires adj).1
            (g1 data num_qubits wires adj).2) ∧
    (∀ (data : σ) (num_qubits : Nat) (matrix : List (α × α)) (wires : List Nat)
        (inverse : Bool),
      wires.length ≤ num_qubits → matOpOfWires wires.length = mat_op →
      applyMatrixRaw (registerMatrixOperation d mat_op kernel m2) kernel data
          num_qubits matrix wires inverse
        = Outcome.ok (m1 data num_qubits matrix wires inverse)) := by
  have hregf : registerGateOperation d gate_op kernel f2 = d := by
    unfold registerGateOperation
    rw [memplace_of_some f2 hf]
  have hregg : registerGeneratorOperation d gntr_op kernel g2 = d := by
    unfold registerGeneratorOperation
    rw [memplace_of_some g2 hg]
  have hregm : registerMatrixOperation d mat_op kernel m2 = d := by
    unfold registerMatrixOperation
    rw [memplace_of_some m2 hm]
  refine ⟨hregf, hregg, hregm, ?_, ?_, ?_⟩
  · intro data num_qubits wires inverse params
    rw [hregf]
    unfold applyOperationOp
    rw [hf]
  · intro data num_qubits wires adj
    rw [hregg]
    unfold applyGenerator
    rw [hg]
  · intro data num_qubits matrix wires inverse hle hcls
    rw [hregm]
    unfold applyMatrixRaw
    rw [if_pos hle, hcls, hm]

/-- Witness for C1: with gateFuncA, genFuncA and matFuncA already registered
in d1 under the Reference kernel, a competing second registration of the B
callables changes nothing, and dispatch still runs the A callables. -/
theorem C1_registration_first_wins_witness :
    mlookup d1.gate_kernels_ (GateOperation.PauliX, KernelType.Reference)
        = some gateFuncA ∧
    registerGateOperation d1 GateOperation.PauliX KernelType.Reference gateFuncB = d1 ∧
    applyOperationOp
        (registerGateOperation d1 GateOperation.PauliX KernelType.Reference gateFuncB)
        KernelType.Reference 10 1 GateOperation.PauliX [0] false []
      = Outcome.ok 11 ∧
    applyGenerator
        (registerGeneratorOperation d1 GeneratorOperation.RX KernelType.Reference genFuncB)
        KernelType.Reference 10 1 GeneratorOperation.RX [0] false
      = GenOutcome.ok 5 13 ∧
    applyMatrixRaw
        (registerMatrixOperation d1 MatrixOperation.SingleQubitOp KernelType.Reference matFuncB)
        KernelType.Reference 10 1 [((0 : Nat), (0 : Nat)), (0, 0), (0, 0), (0, 0)] [0] false
      = Outcome.ok 15 := by
  have base := C1_registration_first_wins d1 GateOperation.PauliX GeneratorOperation.RX
    MatrixOperation.SingleQubitOp KernelType.Reference gateFuncA gateFuncB
    genFuncA genFuncB matFuncA matFuncB rfl rfl rfl
  refine ⟨rfl, base.1, ?_, ?_, ?_⟩
  · exact base.2.2.2.1 10 1 [0] false []
  · exact base.2.2.2.2.1 10 1 [0] false
  · exact base.2.2.2.2.2 10 1 [((0 : Nat), (0 : Nat)), (0, 0), (0, 0), (0, 0)] [0] false
      (by decide) rfl

/-- C2 counterexample: two dispatches requesting different gate operations
under different kernels fail with literally the same error value, so the
KernelNotRegistered report does not identify which operation or which
kernel was requested. -/
theorem C2_report_not_identifying :
    GateOperation.PauliX ≠ GateOperation.RX ∧
    KernelType.Reference ≠ KernelType.Vectorized ∧
    applyOperationOp d0 KernelType.Reference 37 1 GateOperation.PauliX [0] false []
      = Outcome.err (DispatchError.kernelNotRegistered gateKernelMissingMsg) 37 ∧
    applyOperationOp d0 KernelType.Vectorized 37 1 GateOperation.RX [0] false []
      = Outcome.err (DispatchError.kernelNotRegistered gateKernelMissingMsg) 37 := by
  exact ⟨by decide, by decide, rfl, rfl⟩

/-- C2 (amended): a gate dispatch whose resolved (operation, kernel) pair
has no registered callable fails with the KernelNotRegistered category and
an unchanged buffer, carrying the fixed source message, which is the same
for every requested operation and kernel and so does not name them. Both
the string overload and the enumerator overload behave this way. -/
theorem C2_kernel_not_registered {α σ G N K : Type}
    [DecidableEq G] [DecidableEq N] [DecidableEq K]
    (d : DynamicDispatcher α σ G N K) (kernel : K) (data : σ) (num_qubits : Nat)
    (op_name : String) (gate_op : G) (wires : List Nat) (inverse : Bool)
    (params : List α)
    (hres : strToGateOp d op_name = some gate_op)
    (habs : mlookup d.gate_kernels_ (gate_op, kernel) = none) :
    applyOperation d kernel data num_qubits op_name wires inverse params
      = Outcome.err (DispatchError.kernelNotRegistered gateKernelMissingMsg) data ∧
    applyOperationOp d kernel data num_qubits gate_op wires inverse params
      = Outcome.err (DispatchError.kernelNotRegistered gateKernelMissingMsg) data := by
  constructor
  · simp only [applyOperation, hres, habs]
  · simp only [applyOperationOp, habs]

/-- Witness for C2 (amended): with PauliX resolvable but no callable
registered under the Vectorized kernel, dispatch fails with the fixed
KernelNotRegistered error and the buffer is unchanged. -/
theorem C2_kernel_not_registered_witness :
    strToGateOp d0 "PauliX" = some GateOperation.PauliX ∧
    applyOperation d0 KernelType.Vectorized 37 1 "PauliX" [0] false []
      = Outcome.err (DispatchError.kernelNotRegistered gateKernelMissingMsg) 37 := by
  refine ⟨rfl, ?_⟩
  exact (C2_kernel_not_registered d0 KernelType.Vectorized 37 1 "PauliX"
    GateOperation.PauliX [0] false [] rfl rfl).1

/-- C3: a batch applyOperations call whose parallel input sequences violate
the length precondition fails with ArgumentCountMismatch for every
dispatcher state, with the buffer returned unchanged, before any element is
applied; the full overload requires ops, wires and params to agree in
length, the params-free overload requires ops and wires to agree. -/
theorem C3_batch_fail_fast {α σ G N K : Type}
    [DecidableEq G] [DecidableEq N] [DecidableEq K]
    (d : DynamicDispatcher α σ G N K) (kernel : K) (data : σ) (num_qubits : Nat)
    (ops : List String) (wires : List (List Nat)) (inverse : List Bool)
    (params : List (List α)) :
    (ops.length ≠ wires.length ∨ ops.length ≠ params.length →
      applyOperations d kernel data num_qubits ops wires inverse params
        = Outcome.err (DispatchError.argumentCountMismatch invalidArgumentsMsg) data) ∧
    (ops.length ≠ wires.length →
      applyOperationsNP d kernel data num_qubits ops wires inverse
        = Outcome.err (DispatchError.argumentCountMismatch invalidArgumentsMsg) data) := by
  constructor
  · intro h
    unfold applyOperations
    rw [if_pos h]
  · intro h
    unfold applyOperationsNP
    rw [if_pos h]

/-- Witness for C3: three operations against a wires sequence of length
two fail with ArgumentCountMismatch on a dispatcher that does have a
registered PauliX callable, and the buffer value 37 is returned
unchanged. -/
theorem C3_batch_fail_fast_witness :
    (["PauliX", "PauliX", "PauliX"].length ≠ [[0], [0]].length ∨
      ["PauliX", "PauliX", "PauliX"].length ≠ [([] : List Nat), [], []].length) ∧
    applyOperations d1 KernelType.Reference 37 1 ["PauliX", "PauliX", "PauliX"]
        [[0], [0]] [false, false, false] [[], [], []]
      = Outcome.err (DispatchError.argumentCountMismatch invalidArgumentsMsg) 37 ∧
    applyOperationsNP d1 KernelType.Reference 37 1 ["PauliX", "PauliX", "PauliX"]
        [[0], [0]] [false, false, false]
      = Outcome.err (DispatchError.argumentCountMismatch invalidArgumentsMsg) 37 := by
  have base := C3_batch_fail_fast d1 KernelType.Reference 37 1
    ["PauliX", "PauliX", "PauliX"] [[0], [0]] [false, false, false] [[], [], []]
  exact ⟨by decide, base.1 (by decide), base.2 (by decide)⟩

/-- C4: every recoverable failure of a single dispatch call (either
applyOperation overload, either applyMatrix overload, either applyGenerator
overload) carries the buffer in its pre-call state, so a failed single call
leaves the buffer unchanged; and the batch loop of applyOperations applies
elements in strict input order: running a batch split as prefix ++ suffix
first runs the prefix, and a non-ok prefix result is the whole result (the
completed mutations of the prefix are kept, the suffix is never consulted),
while under the length precondition applyOperations is exactly that
sequential loop. -/
theorem C4_fail_order_semantics {α σ G N K : Type}
    [DecidableEq G] [DecidableEq N] [DecidableEq K]
    (d : DynamicDispatcher α σ G N K) (kernel : K) :
    (∀ (data b : σ) (num_qubits : Nat) (op_name : String) (wires : List Nat)
        (inverse : Bool) (params : List α) (e : DispatchError),
      applyOperation d kernel data num_qubits op_name wires inverse params
          = Outcome.err e b → b = data) ∧
    (∀ (data b : σ) (num_qubits : Nat) (gate_op : G) (wires : List Nat)
        (inverse : Bool) (params : List α) (e : DispatchError),
      applyOperationOp d kernel data num_qubits gate_op wires inverse params
          = Outcome.err e b → b = data) ∧
    (∀ (data b : σ) (num_qubits : Nat) (matrix : List (α × α)) (wires : List Nat)
        (inverse : Bool) (e : DispatchError),
      applyMatrix d kernel data num_qubits matrix wires inverse
          = Outcome.err e b → b = data) ∧
    (∀ (data b : σ) (num_qubits : Nat) (matrix : List (α × α)) (wires : List Nat)
        (inverse : Bool) (e : DispatchError),
      applyMatrixRaw d kernel data num_qubits matrix wires inverse
          = Outcome.err e b → b = data) ∧
    (∀ (data b : σ) (num_qubits : Nat) (gntr_op : N) (wires : List Nat)
        (adj : Bool) (e : DispatchError),
      applyGenerator d kernel data num_qubits gntr_op wires adj
          = GenOutcome.err e b → b = data) ∧
    (∀ (data b : σ) (num_qubits : Nat) (op_name : String) (wires : List Nat)
        (adj : Bool) (e : DispatchError),
      applyGeneratorStr d kernel data num_qubits op_name wires adj
          = GenOutcome.err e b → b = data) ∧
    (∀ (data : σ) (num_qubits : Nat) (ops1 ops2 : List String)
        (wires1 wires2 : List (List Nat)) (inv1 inv2 : List Bool)
        (params1 params2 : List (List α)),
      ops1.length = wires1.length → ops1.length = inv1.length →
      ops1.length = params1.length →
      applyOperationsLoop d kernel num_qubits data (ops1 ++ ops2)
          (wires1 ++ wires2) (inv1 ++ inv2) (params1 ++ params2)
        = match applyOperationsLoop d kernel num_qubits data ops1 wires1 inv1 params1 with
          | Outcome.ok data2 =>
              applyOperationsLoop d kernel num_qubits data2 ops2 wires2 inv2 params2
          | out => out) ∧
    (∀ (data : σ) (num_qubits : Nat) (ops : List String)
        (wires : List (List Nat)) (inverse : List Bool) (params : List (List α)),
      ops.length = wires.length → ops.length = params.length →
      applyOperations d kernel data num_qubits ops wires inverse params
        = applyOperationsLoop d kernel num_qubits data ops wires inverse params) := by
  refine ⟨?_, ?_, ?_, ?_, ?_, ?_, ?_, ?_⟩
  · intro data b nq opn w i p e h
    unfold applyOperation at h
    split at h
    · injection h with h1 h2
      exact h2.symm
    · split at h
      · injection h with h1 h2
        exact h2.symm
      · simp at h
  · intro data b nq gop w i p e h
    unfold applyOperationOp at h
    split at h
    · injection h with h1 h2
      exact h2.symm
    · simp at h
  · intro data b nq mat w i e h
    unfold applyMatrix at h
    split at h
    · injection h with h1 h2
      exact h2.symm
    · unfold applyMatrixRaw at h
      split at h
      · split at h
        · injection h with h1 h2
          exact h2.symm
        · simp at h
      · simp at h
  · intro data b nq mat w i e h
    unfold applyMatrixRaw at h
    split at h
    · split at h
      · injection h with h1 h2
        exact h2.symm
      · simp at h
    · simp at h
  · intro data b nq gop w adj e h
    unfold applyGenerator at h
    split at h
    · injection h with h1 h2
      exact h2.symm
    · simp at h
  · intro data b nq opn w adj e h
    unfold applyGeneratorStr at h
    split at h
    · injection h with h1 h2
      exact h2.symm
    · split at h
      · injection h with h1 h2
        exact h2.symm
      · simp at h
  · intro data nq ops1 ops2 wires1 wires2 inv1 inv2 params1 params2 hw hi hp
    induction ops1 generalizing data wires1 inv1 params1 with
    | nil =>
      have hw0 : wires1 = [] := List.eq_nil_of_length_eq_zero (by simpa using hw.symm)
      have hi0 : inv1 = [] := List.eq_nil_of_length_eq_zero (by simpa using hi.symm)
      have hp0 : params1 = [] := List.eq_nil_of_length_eq_zero (by simpa using hp.symm)
      subst hw0
      subst hi0
      subst hp0
      simp [applyOperationsLoop]
    | cons op rest ih =>
      obtain ⟨w, wrest, rfl⟩ : ∃ w wrest, wires1 = w :: wrest := by
        cases wires1 with
        | nil => simp at hw
        | cons a l => exact ⟨a, l, rfl⟩
      obtain ⟨iv, irest, rfl⟩ : ∃ iv irest, inv1 = iv :: irest := by
        cases inv1 with
        | nil => simp at hi
        | cons a l => exact ⟨a, l, rfl⟩
      obtain ⟨pp, prest, rfl⟩ : ∃ pp prest, params1 = pp :: prest := by
        cases params1 with
        | nil => simp at hp
        | cons a l => exact ⟨a, l, rfl⟩
      simp only [List.cons_append, applyOperationsLoop]
      cases happ : applyOperation d kernel data nq op w iv pp with
      | ok d2 =>
        exact ih d2 wrest irest prest (by simpa using hw) (by simpa using hi)
          (by simpa using hp)
      | err e b => rfl
      | fatal => rfl
  · intro data nq ops wires inverse params hw hp
    unfold applyOperations
    rw [if_neg]
    push_neg
    exact ⟨hw, hp⟩

/-- Witness for C4: in a three-element batch on d1 the first element
(PauliX, registered, buffer 10 to 11) completes, the second element (RX,
unregistered) fails at buffer 11, and the batch result is that error with
buffer 11: the first mutation is kept, the third element is never run. -/
theorem C4_fail_order_semantics_witness :
    applyOperations d1 KernelType.Reference 10 1 ["PauliX", "RX", "PauliX"]
        [[0], [0], [0]] [false, false, false] [[], [], []]
      = applyOperationsLoop d1 KernelType.Reference 1 10 ["PauliX", "RX", "PauliX"]
        [[0], [0], [0]] [false, false, false] [[], [], []] ∧
    applyOperationsLoop d1 KernelType.Reference 1 10 (["PauliX"] ++ ["RX", "PauliX"])
        ([[0]] ++ [[0], [0]]) ([false] ++ [false, false]) ([[]] ++ [[], []])
      = Outcome.err (DispatchError.kernelNotRegistered gateKernelMissingMsg) 11 ∧
    (11 : Nat) = 11 := by
  have base := C4_fail_order_semantics d1 KernelType.Reference
  refine ⟨?_, ?_, ?_⟩
  · exact base.2.2.2.2.2.2.2 10 1 ["PauliX", "RX", "PauliX"] [[0], [0], [0]]
      [false, false, false] [[], [], []] rfl rfl
  · have hdec := base.2.2.2.2.2.2.1 10 1 ["PauliX"] ["RX", "PauliX"] [[0]] [[0], [0]]
      [false] [false, false] [[]] [[], []] rfl rfl rfl
    exact hdec.trans rfl
  · exact base.1 11 11 1 "RX" [0] false []
      (DispatchError.kernelNotRegistered gateKernelMissingMsg) rfl

/-- C5: applyMatrix classifies the matrix operation purely by the wire
count, 1 selecting SingleQubitOp, 2 TwoQubitOp and any other count
MultiQubitOp, and for every matrix (independently of its contents) the
dispatch outcome is determined by the callable registered under the
classified operation. -/
theorem C5_matrix_classification {α σ G N K : Type}
    [DecidableEq G] [DecidableEq N] [DecidableEq K]
    (d : DynamicDispatcher α σ G N K) (kernel : K) (data : σ) (num_qubits : Nat)
    (matrix : List (α × α)) (wires : List Nat) (inverse : Bool)
    (hq : wires.length ≤ num_qubits) :
    matOpOfWires 1 = MatrixOperation.SingleQubitOp ∧
    matOpOfWires 2 = MatrixOperation.TwoQubitOp ∧
    (∀ n : Nat, n ≠ 1 → n ≠ 2 → matOpOfWires n = MatrixOperation.MultiQubitOp) ∧
    (mlookup d.matrix_kernels_ (matOpOfWires wires.length, kernel) = none →
      applyMatrixRaw d kernel data num_qubits matrix wires inverse
        = Outcome.err
            (DispatchError.kernelNotRegistered
              (matrix_names (matOpOfWires wires.length) ++ matrixMissingMsgSuffix))
            data) ∧
    (∀ func,
      mlookup d.matrix_kernels_ (matOpOfWires wires.length, kernel) = some func →
      applyMatrixRaw d kernel data num_qubits matrix wires inverse
        = Outcome.ok (func data num_qubits matrix wires inverse)) := by
  refine ⟨rfl, rfl, ?_, ?_, ?_⟩
  · intro n h1 h2
    match n with
    | 0 => rfl
    | 1 => exact absurd rfl h1
    | 2 => exact absurd rfl h2
    | (m + 3) => rfl
  · intro habs
    unfold applyMatrixRaw
    rw [if_pos hq]
    rw [habs]
  · intro func hfunc
    unfold applyMatrixRaw
    rw [if_pos hq]
    rw [hfunc]

/-- Witness for C5: on d1 with its SingleQubitOp callable, a 1-wire request
dispatches to the single-qubit callable for two different matrices, and
wire count 3 classifies to MultiQubitOp. -/
theorem C5_matrix_classification_witness :
    ([0] : List Nat).length ≤ 1 ∧
    matOpOfWires 1 = MatrixOperation.SingleQubitOp ∧
    matOpOfWires 2 = MatrixOperation.TwoQubitOp ∧
    matOpOfWires 3 = MatrixOperation.MultiQubitOp ∧
    applyMatrixRaw d1 KernelType.Reference 10 1 [((1 : Nat), (2 : Nat))] [0] false
      = Outcome.ok 15 ∧
    applyMatrixRaw d1 KernelType.Reference 10 1 [((9 : Nat), (9 : Nat)), (8, 8)] [0] false
      = Outcome.ok 15 := by
  have base1 := C5_matrix_classification d1 KernelType.Reference 10 1
    [((1 : Nat), (2 : Nat))] [0] false (by decide)
  have base2 := C5_matrix_classification d1 KernelType.Reference 10 1
    [((9 : Nat), (9 : Nat)), (8, 8)] [0] false (by decide)
  refine ⟨by decide, base1.1, base1.2.1, base1.2.2.1 3 (by decide) (by decide), ?_, ?_⟩
  · exact base1.2.2.2.2 matFuncA rfl
  · exact base2.2.2.2.2 matFuncA rfl

/-- C6: the vector overload of applyMatrix validates the explicit element
count against 4 to the power of the wire count: a differing count fails
with MatrixSizeMismatch before any registry lookup (for every dispatcher
state, buffer unchanged), while a matching count never produces a size
error. -/
theorem C6_matrix_size_check {α σ G N K : Type}
    [DecidableEq G] [DecidableEq N] [DecidableEq K]
    (d : DynamicDispatcher α σ G N K) (kernel : K) (data : σ) (num_qubits : Nat)
    (matrix : List (α × α)) (wires : List Nat) (inverse : Bool) :
    (matrix.length ≠ 4 ^ wires.length →
      applyMatrix d kernel data num_qubits matrix wires inverse
        = Outcome.err (DispatchError.matrixSizeMismatch matrixSizeMsg) data) ∧
    (matrix.length = 4 ^ wires.length →
      ∀ (msg : String) (b : σ),
        applyMatrix d kernel data num_qubits matrix wires inverse
          ≠ Outcome.err (DispatchError.matrixSizeMismatch msg) b) := by
  have hpow : exp2 (2 * wires.length) = 4 ^ wires.length := by
    unfold exp2
    rw [pow_mul]
    norm_num
  constructor
  · intro h
    unfold applyMatrix
    rw [if_pos]
    rw [hpow]
    exact h
  · intro h msg b hcontra
    unfold applyMatrix at hcontra
    rw [if_neg (by rw [hpow]; exact fun hne => hne h)] at hcontra
    unfold applyMatrixRaw at hcontra
    split at hcontra
    · split at hcontra
      · injection hcontra with h1 h2
        exact DispatchError.noConfusion h1
      · simp at hcontra
    · simp at hcontra

/-- Witness for C6: a 3-element matrix for a 1-wire request (expected 4)
fails with MatrixSizeMismatch on an unchanged buffer, and a 4-element
matrix for the same request raises no size error. -/
theorem C6_matrix_size_check_witness :
    ([((0 : Nat), (0 : Nat)), (0, 0), (0, 0)].length ≠ 4 ^ ([0] : List Nat).length) ∧
    applyMatrix d1 KernelType.Reference 37 1 [((0 : Nat), (0 : Nat)), (0, 0), (0, 0)]
        [0] false
      = Outcome.err (DispatchError.matrixSizeMismatch matrixSizeMsg) 37 ∧
    (∀ (msg : String) (b : Nat),
      applyMatrix d1 KernelType.Reference 37 1
          [((0 : Nat), (0 : Nat)), (0, 0), (0, 0), (0, 0)] [0] false
        ≠ Outcome.err (DispatchError.matrixSizeMismatch msg) b) := by
  have base1 := C6_matrix_size_check d1 KernelType.Reference 37 1
    [((0 : Nat), (0 : Nat)), (0, 0), (0, 0)] [0] false
  have base2 := C6_matrix_size_check d1 KernelType.Reference 37 1
    [((0 : Nat), (0 : Nat)), (0, 0), (0, 0), (0, 0)] [0] false
  exact ⟨by decide, base1.1 (by decide), base2.2 (by decide)⟩

/-- C7: constructing the dispatcher from name-unique catalogues whose
generator names all carry the "Generator" prefix, every catalogued gate
name resolves through strToGateOp to its catalogued enumerator, and every
bare name X of a catalogued generator name "Generator" ++ X resolves
through strToGeneratorOp to its catalogued enumerator. -/
theorem C7_catalogue_round_trip {α σ G N K : Type}
    [DecidableEq G] [DecidableEq N] [DecidableEq K]
    (gate_names : List (G × String)) (generator_names : List (N × String))
    (hg : (gate_names.map Prod.snd).Nodup)
    (hn : (generator_names.map Prod.snd).Nodup)
    (hpref : ∀ p ∈ generator_names, ∃ X : String, p.2 = generatorLiteral ++ X) :
    (∀ (gate_op : G) (name : String), (gate_op, name) ∈ gate_names →
      strToGateOp
          (mkDynamicDispatcher gate_names generator_names : DynamicDispatcher α σ G N K)
          name
        = some gate_op) ∧
    (∀ (gntr_op : N) (X : String),
      (gntr_op, generatorLiteral ++ X) ∈ generator_names →
      strToGeneratorOp
          (mkDynamicDispatcher gate_names generator_names : DynamicDispatcher α σ G N K)
          X
        = some gntr_op) := by
  constructor
  · intro gate_op name hmem
    unfold strToGateOp mkDynamicDispatcher
    exact mlookup_foldl_emplace_mem gate_names [] hg hmem rfl
  · intro gntr_op X hmem
    unfold strToGeneratorOp mkDynamicDispatcher
    have hmem2 : (gntr_op, X) ∈ generatorNamesWithoutPrefix generator_names := by
      have hmap := List.mem_map_of_mem
        (fun p : N × String => (p.1, p.2.drop generatorLiteral.length)) hmem
      simpa [ generatorNamesWithoutPrefix, generator_append_drop X] using hmap
    have hnd2 : (( generatorNamesWithoutPrefix generator_names).map Prod.snd).Nodup := by
      have hmapeq : ( generatorNamesWithoutPrefix generator_names).map Prod.snd
          = (generator_names.map Prod.snd).map
              (fun s => s.drop generatorLiteral.length) := by
        simp [ generatorNamesWithoutPrefix, List.map_map]
      rw [hmapeq]
      refine List.Nodup.map_on ?_ hn
      intro x hx y hy hxy
      obtain ⟨px, hpx, hpx2⟩ := List.mem_map.mp hx
      obtain ⟨py, hpy, hpy2⟩ := List.mem_map.mp hy
      obtain ⟨X1, hX1⟩ := hpref px hpx
      obtain ⟨Y1, hY1⟩ := hpref py hpy
      rw [← hpx2, ← hpy2, hX1, hY1] at hxy ⊢
      rw [generator_append_drop X1, generator_append_drop Y1] at hxy
      rw [hxy]
    exact mlookup_foldl_emplace_mem ( generatorNamesWithoutPrefix generator_names)
      [] hnd2 hmem2 rfl

/-- Witness for C7 over the sample catalogues: "CNOT" resolves to the CNOT
gate enumerator and the bare name "RX" resolves to the RX generator
enumerator catalogued as "GeneratorRX". -/
theorem C7_catalogue_round_trip_witness :
    (gateNamesSample.map Prod.snd).Nodup ∧
    (generatorNamesSample.map Prod.snd).Nodup ∧
    strToGateOp
        (mkDynamicDispatcher gateNamesSample generatorNamesSample
          : DynamicDispatcher Nat Nat GateOperation GeneratorOperation KernelType)
        "CNOT"
      = some GateOperation.CNOT ∧
    strToGeneratorOp
        (mkDynamicDispatcher gateNamesSample generatorNamesSample
          : DynamicDispatcher Nat Nat GateOperation GeneratorOperation KernelType)
        "RX"
      = some GeneratorOperation.RX := by
  have hpref : ∀ p ∈ generatorNamesSample, ∃ X : String, p.2 = generatorLiteral ++ X := by
    intro p hp
    simp only [generatorNamesSample, List.mem_cons, List.not_mem_nil, or_false] at hp
    rcases hp with h | h
    · subst h
      exact ⟨"RX", by decide⟩
    · subst h
      exact ⟨"RY", by decide⟩
  have base := C7_catalogue_round_trip (α := Nat) (σ := Nat) (K := KernelType)
    gateNamesSample generatorNamesSample (by decide) (by decide) hpref
  refine ⟨by decide, by decide, ?_, ?_⟩
  · exact base.1 GateOperation.CNOT "CNOT" (by decide)
  · exact base.2 GeneratorOperation.RX "RX" (by decide)

/-- Keys absent from an association list according to mlookup are not among
its mapped-out keys. -/
theorem not_mem_keys_of_mlookup_none {κ ν : Type} [DecidableEq κ] :
    ∀ {m : List (κ × ν)} {k : κ}, mlookup m k = none → k ∉ m.map Prod.fst := by
  intro m
  induction m with
  | nil =>
    intro k h
    simp
  | cons p rest ih =>
    intro k h
    obtain ⟨pk, pv⟩ := p
    unfold mlookup at h
    by_cases hk : k = pk
    · rw [if_pos hk] at h
      exact Option.noConfusion h
    · rw [if_neg hk] at h
      simp only [List.map_cons, List.mem_cons]
      push_neg
      exact ⟨hk, ih h⟩

/-- C8: a string applyOperation call whose operation name is absent from
the gate name table fails with UnknownOperation, for every dispatcher state
and before any registry lookup, and the buffer is returned unchanged. -/
theorem C8_unknown_operation {α σ G N K : Type}
    [DecidableEq G] [DecidableEq N] [DecidableEq K]
    (d : DynamicDispatcher α σ G N K) (kernel : K) (data : σ) (num_qubits : Nat)
    (op_name : String) (wires : List Nat) (inverse : Bool) (params : List α)
    (habs : hasGateOp d op_name = false) :
    applyOperation d kernel data num_qubits op_name wires inverse params
      = Outcome.err DispatchError.unknownOperation data := by
  have hres : strToGateOp d op_name = none := by
    unfold hasGateOp at habs
    unfold strToGateOp
    cases hm : mlookup d.str_to_gates_ op_name with
    | none => rfl
    | some g =>
      rw [hm] at habs
      simp at habs
  simp only [applyOperation, hres]

/-- Witness for C8 at the concrete scenario of the spec: "NotAGate" is not a
catalogued gate name, and dispatching it on d1 fails with UnknownOperation
leaving the buffer value 37 unchanged, although d1 has a registered
callable. -/
theorem C8_unknown_operation_witness :
    hasGateOp d1 "NotAGate" = false ∧
    applyOperation d1 KernelType.Reference 37 1 "NotAGate" [0] false []
      = Outcome.err DispatchError.unknownOperation 37 := by
  refine ⟨rfl, ?_⟩
  exact C8_unknown_operation d1 KernelType.Reference 37 1 "NotAGate" [0] false [] rfl

/-- C9: applyMatrix enforces num_qubits greater than or equal to the wire
count as a fatal assertion: a violating call aborts fatally instead of
returning a recoverable error outcome, and under the precondition the
assertion branch is unreachable (the call never aborts). -/
theorem C9_fatal_precondition {α σ G N K : Type}
    [DecidableEq G] [DecidableEq N] [DecidableEq K]
    (d : DynamicDispatcher α σ G N K) (kernel : K) (data : σ) (num_qubits : Nat)
    (matrix : List (α × α)) (wires : List Nat) (inverse : Bool) :
    (num_qubits < wires.length →
      applyMatrixRaw d kernel data num_qubits matrix wires inverse
        = Outcome.fatal) ∧
    (wires.length ≤ num_qubits →
      applyMatrixRaw d kernel data num_qubits matrix wires inverse
        ≠ Outcome.fatal) := by
  constructor
  · intro h
    unfold applyMatrixRaw
    rw [if_neg (by omega)]
  · intro h hcontra
    unfold applyMatrixRaw at hcontra
    rw [if_pos h] at hcontra
    split at hcontra
    · simp at hcontra
    · simp at hcontra

/-- Witness for C9: a 2-wire request on a 1-qubit buffer aborts fatally,
while the corresponding 1-wire request does not abort. -/
theorem C9_fatal_precondition_witness :
    (1 : Nat) < ([0, 1] : List Nat).length ∧
    applyMatrixRaw d1 KernelType.Reference 37 1 [((0 : Nat), (0 : Nat))] [0, 1] false
      = Outcome.fatal ∧
    ([0] : List Nat).length ≤ 1 ∧
    applyMatrixRaw d1 KernelType.Reference 37 1 [((0 : Nat), (0 : Nat))] [0] false
      ≠ Outcome.fatal := by
  have base1 := C9_fatal_precondition d1 KernelType.Reference 37 1
    [((0 : Nat), (0 : Nat))] [0, 1] false
  have base2 := C9_fatal_precondition d1 KernelType.Reference 37 1
    [((0 : Nat), (0 : Nat))] [0] false
  exact ⟨by decide, base1.1 (by decide), by decide, base2.2 (by decide)⟩

/-- C10: the kernel display-name table is first-wins too: after naming a
fresh kernel, naming it again is a silent no-op (the state is unchanged),
getKernelName still returns the first registered name, and
registeredKernels lists that kernel exactly once. -/
theorem C10_kernel_name_first_wins {α σ G N K : Type}
    [DecidableEq G] [DecidableEq N] [DecidableEq K]
    (d : DynamicDispatcher α σ G N K) (kernel : K) (name1 name2 : String)
    (hfresh : getKernelName d kernel = none) :
    registerKernelName (registerKernelName d kernel name1) kernel name2
      = registerKernelName d kernel name1 ∧
    getKernelName
        (registerKernelName (registerKernelName d kernel name1) kernel name2) kernel
      = some name1 ∧
    (registeredKernels
        (registerKernelName (registerKernelName d kernel name1) kernel name2)).count
        kernel
      = 1 := by
  have hfresh2 : mlookup d.kernel_names_ kernel = none := hfresh
  have hk1 : mlookup (registerKernelName d kernel name1).kernel_names_ kernel
      = some name1 := by
    unfold registerKernelName
    exact mlookup_memplace_self_none name1 hfresh2
  have hnoop : ∀ (d2 : DynamicDispatcher α σ G N K) (v n : String),
      mlookup d2.kernel_names_ kernel = some v →
      registerKernelName d2 kernel n = d2 := by
    intro d2 v n h
    unfold registerKernelName
    rw [memplace_of_some n h]
  have hreg2 := hnoop _ name1 name2 hk1
  have hcons : (registerKernelName d kernel name1).kernel_names_
      = (kernel, name1) :: d.kernel_names_ := by
    unfold registerKernelName
    unfold memplace
    rw [hfresh2]
  refine ⟨hreg2, ?_, ?_⟩
  · rw [hreg2]
    unfold getKernelName
    exact hk1
  · rw [hreg2]
    unfold registeredKernels
    rw [hcons]
    simp [List.count_cons,
      List.count_eq_zero.mpr (not_mem_keys_of_mlookup_none hfresh2)]

/-- Witness for C10: naming the fresh Reference kernel "LM" and then
attempting to rename it "AVX2" leaves the first name in force and lists the
kernel once. -/
theorem C10_kernel_name_first_wins_witness :
    getKernelName d0 KernelType.Reference = none ∧
    registerKernelName (registerKernelName d0 KernelType.Reference "LM")
        KernelType.Reference "AVX2"
      = registerKernelName d0 KernelType.Reference "LM" ∧
    getKernelName
        (registerKernelName (registerKernelName d0 KernelType.Reference "LM")
          KernelType.Reference "AVX2") KernelType.Reference
      = some "LM" ∧
    (registeredKernels
        (registerKernelName (registerKernelName d0 KernelType.Reference "LM")
          KernelType.Reference "AVX2")).count KernelType.Reference
      = 1 := by
  have base := C10_kernel_name_first_wins d0 KernelType.Reference "LM" "AVX2" rfl
  exact ⟨rfl, base.1, base.2.1, base.2.2⟩
